import Mathlib

/-!
Verification of the curtail image-manipulation library.

The development shallowly embeds the library's pure computations and the
control flow of its four operations (crop, convert, resize, pad):

* `gcd`, `simplify` embed the Euclidean-algorithm fraction simplifier
  (src/dist/curtail.js, `gcd` / `simplify`).
* `jsSlice`, `jsLastIndexOf`, `getFileInfo` embed the JavaScript string
  primitives used by the file-descriptor extractor and the extractor itself
  (src/dist/curtail.js, `getFileInfo`; the bundled `utils.extractFileInfo`
  called from src/unnamed/part_000 is the same routine).
* `CanvasOp`, `CanvasPlan` describe the sequence of drawing-surface calls an
  operation performs; `convert` and `pad` build the plans the corresponding
  functions in src/unnamed/part_000 execute.
* `LoadResult`, `Promise`, and the `*Promise` functions embed each
  operation's promise wiring: an image load either succeeds or fails, and
  the operation resolves or rejects accordingly.
* `replaceFirstList` / `jsReplaceFirst` embed JavaScript
  `String.prototype.replace` with a string pattern (first occurrence only),
  used by crop's data-URL MIME override.

Numbers that JavaScript holds as float64 but that are integer-valued in
every reachable state (dimensions, indices) are embedded as `Nat` / `Int`;
genuinely fractional intermediate values (aspect-ratio scaling, centering
offsets) are embedded as `ℚ`, on which the source's arithmetic is exact.
-/

namespace Curtail

/-- JavaScript `String.prototype.lastIndexOf` restricted to a
single-character pattern, on an explicit character list: index of the last
occurrence, `-1` when absent. -/
def lastIndexOfList (l : List Char) (c : Char) : Int :=
  match l with
  | [] => -1
  | a :: as =>
    let r := lastIndexOfList as c
    if r ≥ 0 then r + 1
    else if a = c then 0 else -1

/-- JavaScript `s.lastIndexOf(c)` for a one-character search string. -/
def jsLastIndexOf (s : String) (c : Char) : Int :=
  lastIndexOfList s.data c

/-- JavaScript `s.slice(start, stop)`: negative indices count from the end,
indices clamp to `[0, length]`, and an empty string results when the
resolved end does not exceed the resolved start. -/
def jsSlice (s : String) (start stop : Int) : String :=
  let len : Int := s.length
  let rs : Int := if start < 0 then max (len + start) 0 else min start len
  let re : Int := if stop < 0 then max (len + stop) 0 else min stop len
  if re ≤ rs then "" else ⟨(s.data.drop rs.toNat).take (re - rs).toNat⟩

/-- The file descriptor derived from a source locator (the `fileInfo`
object built by `getFileInfo` in src/dist/curtail.js, fields
`name` / `ext`). -/
structure FileInfo where
  name : String
  ext : String
deriving DecidableEq

/-- Embedding of `getFileInfo` from src/dist/curtail.js: `nameIndex` is the index of the
last `/` when one exists and `0` otherwise; `extIndex` is the index of the
last `.` (possibly `-1`); `name = src.slice(nameIndex + 1, extIndex)` and
`ext = src.slice(extIndex + 1)`. The bundled build in src/unnamed/part_000
calls the identical routine as `utils.extractFileInfo`. -/
def getFileInfo (src : String) : FileInfo :=
  let nameIndex : Int := if jsLastIndexOf src '/' > -1 then jsLastIndexOf src '/' else 0
  let extIndex : Int := jsLastIndexOf src '.'
  { name := jsSlice src (nameIndex + 1) extIndex,
    ext := jsSlice src (extIndex + 1) src.length }

/-- Embedding of `gcd` from src/dist/curtail.js: the iterative Euclidean loop
`while (b !== 0) { temp = a; a = b; b = temp % b } return a`, written as
the equivalent recursion, one loop iteration per call. -/
def gcd (a b : Nat) : Nat :=
  if b = 0 then a else gcd b (a % b)
termination_by b
decreasing_by exact Nat.mod_lt _ (Nat.pos_of_ne_zero (by assumption))

/-- Embedding of `simplify` from src/dist/curtail.js: divide numerator and denominator
by their `gcd`. -/
def simplify (numerator denominator : Nat) : Nat × Nat :=
  let num := gcd numerator denominator
  (numerator / num, denominator / num)

/-- JavaScript `Math.round` on an exact rational argument: round half-up,
`Math.round(x) = ⌊x + 1/2⌋`. -/
def jsRound (q : ℚ) : ℤ := ⌊q + 1/2⌋

/-- The dimension update performed inside `resize`'s load handler
(src/unnamed/part_000 lines 174-183 and the equivalent branch of
`Curtail.resize` in src/dist/curtail.js): compute the simplified aspect
ratio of the natural dimensions; for selector `"width"` set the width to
`size` and, when preserving the aspect ratio, set the height to
`Math.round(denominator / numerator * size)`; symmetrically for
`"height"`; any other selector leaves both dimensions untouched. -/
def resizeDims (naturalW naturalH : Nat) (dimension : String) (size : Nat)
    (preserveAspect : Bool) : Nat × Nat :=
  let aspectRatio := simplify naturalW naturalH
  if dimension = "width" then
    (size,
     if preserveAspect
     then (jsRound ((aspectRatio.2 : ℚ) / (aspectRatio.1 : ℚ) * (size : ℚ))).toNat
     else naturalH)
  else if dimension = "height" then
    (if preserveAspect
     then (jsRound ((aspectRatio.1 : ℚ) / (aspectRatio.2 : ℚ) * (size : ℚ))).toNat
     else naturalW,
     size)
  else (naturalW, naturalH)

/-- The unselected-dimension formula as the specification states it: from
the simplified aspect ratio `(w/g, h/g)` with `g = Nat.gcd w h`, the other
dimension becomes
`round(other_ratio_component / selected_ratio_component * size)`. -/
def resizeOtherSpec (naturalW naturalH size : Nat) (widthSelected : Bool) : Nat :=
  let g := Nat.gcd naturalW naturalH
  let selected : Nat := if widthSelected then naturalW / g else naturalH / g
  let other : Nat := if widthSelected then naturalH / g else naturalW / g
  (jsRound ((other : ℚ) / (selected : ℚ) * (size : ℚ))).toNat

/-- One call into the host drawing surface, as issued by the operations. -/
inductive CanvasOp where
  /-- The call `ctx.fillStyle = color; ctx.fillRect(x, y, w, h)`. -/
  | fillRect (color : String) (x y w h : ℚ)
  /-- The call `ctx.drawImage(img, dx, dy)`: draw the source at its natural size. -/
  | drawImageFull (dx dy : ℚ)
  /-- The call `ctx.drawImage(img, dx, dy, dw, dh)`. -/
  | drawImageScaled (dx dy dw dh : ℚ)
deriving DecidableEq

/-- A destination surface together with the drawing calls executed on it
and the MIME designation passed to `canvas.toDataURL`. -/
structure CanvasPlan where
  width : Nat
  height : Nat
  ops : List CanvasOp
  dataURLMime : String
deriving DecidableEq

/-- The list `nonTransparentFormats` from `convert` (src/unnamed/part_000
line 102). -/
def nonTransparentFormats : List String := ["jpg", "jpeg", "gif", "bmp"]

/-- Embedding of `convert` (src/unnamed/part_000 lines 94-145) up to the encoding step:
`none` when the source's extension already equals the target format (the
function returns before any canvas is created); otherwise the destination
surface matches the source dimensions, is pre-filled with opaque white
`"#FFF"` exactly when the format is in `nonTransparentFormats`, and the
source is drawn at `(0, 0)`. -/
def convert (path format : String) (naturalW naturalH : Nat) : Option CanvasPlan :=
  let fileInfo := getFileInfo path
  if fileInfo.ext = format then none
  else some
    { width := naturalW
      height := naturalH
      ops :=
        (if nonTransparentFormats.contains format
         then [CanvasOp.fillRect "#FFF" 0 0 (naturalW : ℚ) (naturalH : ℚ)]
         else []) ++ [CanvasOp.drawImageFull 0 0]
      dataURLMime := "image/" ++ format }

/-- An entry of the `FORMAT` table of the `Curtail` class
(src/dist/curtail.js lines 135-149). -/
structure Format where
  ext : String
  transparent : Bool
deriving DecidableEq

/-- Entry `FORMAT.PNG` of src/dist/curtail.js. -/
def FORMAT.PNG : Format := { ext := "png", transparent := true }

/-- Entry `FORMAT.JPG` of src/dist/curtail.js. -/
def FORMAT.JPG : Format := { ext := "jpg", transparent := false }

/-- Entry `FORMAT.GIF` of src/dist/curtail.js. -/
def FORMAT.GIF : Format := { ext := "gif", transparent := false }

/-- Entry `FORMAT.BMP` of src/dist/curtail.js. -/
def FORMAT.BMP : Format := { ext := "bmp", transparent := false }

/-- Entry `FORMAT.WEBP` of src/dist/curtail.js. -/
def FORMAT.WEBP : Format := { ext := "webp", transparent := true }

/-- Entry `FORMAT.PDF` of src/dist/curtail.js. -/
def FORMAT.PDF : Format := { ext := "pdf", transparent := true }

/-- The white-prefill condition of `Curtail.convert` in src/dist/curtail.js
(line 256): the fill runs exactly when `!format.transparent`. -/
def distPrefillsWhite (format : Format) : Bool := !format.transparent

/-- Embedding of `pad` (src/unnamed/part_000 lines 222-272) up to the encoding step:
destination sized `(w + padding*2) × (h + padding*2)`; when `paddingColor`
differs from the `'transparent'` sentinel, the whole destination is filled
with it first; the source is then drawn at
`(canvas.width/2 - w/2, canvas.height/2 - h/2)` at its natural size, and
the surface is encoded with the source's extension. -/
def pad (path : String) (padding : Nat) (paddingColor : String)
    (naturalW naturalH : Nat) : CanvasPlan :=
  let canvasW := naturalW + padding * 2
  let canvasH := naturalH + padding * 2
  { width := canvasW
    height := canvasH
    ops :=
      (if paddingColor ≠ "transparent"
       then [CanvasOp.fillRect paddingColor 0 0 (canvasW : ℚ) (canvasH : ℚ)]
       else []) ++
      [CanvasOp.drawImageScaled ((canvasW : ℚ) / 2 - (naturalW : ℚ) / 2)
        ((canvasH : ℚ) / 2 - (naturalH : ℚ) / 2) (naturalW : ℚ) (naturalH : ℚ)]
    dataURLMime := "image/" ++ (getFileInfo path).ext }

/-- A decoded image handle: the host bitmap's dimensions. -/
structure Img where
  width : Nat
  height : Nat
deriving DecidableEq

/-- The outcome the host reports for one asynchronous image load: the
`load` event with a decoded image, or the `error` event with the
platform's error value. -/
inductive LoadResult (ε : Type) where
  | ok (img : Img)
  | err (e : ε)

/-- The settled state of an operation's promise. -/
inductive Promise (ε α : Type) where
  | resolved (value : α)
  | rejected (e : ε)

/-- Promise wiring of `crop` (src/unnamed/part_000 lines 36-78 and
`Curtail.crop` in src/dist/curtail.js): a source load error rejects with
the platform error; otherwise the freshly encoded result image is loaded,
whose error likewise rejects and whose load resolves with that new
image. -/
def cropPromise {ε : Type} (srcLoad encLoad : LoadResult ε) : Promise ε Img :=
  match srcLoad with
  | .err e => .rejected e
  | .ok _ =>
    match encLoad with
    | .err e => .rejected e
    | .ok croppedImage => .resolved croppedImage

/-- Promise wiring of `convert` (src/unnamed/part_000 lines 94-145): no
promise at all when the source extension equals the target format;
otherwise source and encoded-result load errors reject, and the
encoded-result load resolves with the new image. -/
def convertPromise {ε : Type} (path format : String)
    (srcLoad encLoad : LoadResult ε) : Option (Promise ε Img) :=
  if (getFileInfo path).ext = format then none
  else some
    (match srcLoad with
     | .err e => .rejected e
     | .ok _ =>
       match encLoad with
       | .err e => .rejected e
       | .ok convertedImage => .resolved convertedImage)

/-- Promise wiring of `pad` (src/unnamed/part_000 lines 222-272): same
two-stage load wiring as `crop`. -/
def padPromise {ε : Type} (srcLoad encLoad : LoadResult ε) : Promise ε Img :=
  match srcLoad with
  | .err e => .rejected e
  | .ok _ =>
    match encLoad with
    | .err e => .rejected e
    | .ok paddedImage => .resolved paddedImage

/-- Promise wiring of `resize` (src/unnamed/part_000 lines 163-203): a
load error rejects; a successful load mutates the handle's dimensions via
`resizeDims` and resolves with the same handle. -/
def resizePromise {ε : Type} (dimension : String) (size : Nat)
    (preserveAspect : Bool) (srcLoad : LoadResult ε) : Promise ε Img :=
  match srcLoad with
  | .err e => .rejected e
  | .ok originalImage =>
    let dims := resizeDims originalImage.width originalImage.height dimension
      size preserveAspect
    .resolved { width := dims.1, height := dims.2 }

/-- First-occurrence string replacement on character lists: JavaScript
`String.prototype.replace` with a plain string pattern. -/
def replaceFirstList : List Char → List Char → List Char → List Char
  | [], pat, rep => if pat.isPrefixOf ([] : List Char) then rep else []
  | c :: rest, pat, rep =>
    if pat.isPrefixOf (c :: rest) then rep ++ (c :: rest).drop pat.length
    else c :: replaceFirstList rest pat rep

/-- JavaScript `s.replace(pat, rep)` for a plain string pattern. -/
def jsReplaceFirst (s pat rep : String) : String :=
  ⟨replaceFirstList s.data pat.data rep.data⟩

/-- The shape of the host's `canvas.toDataURL(mime)` result; the external
encoder is abstracted by its base64 `payload`. -/
def toDataURL (mime payload : String) : String :=
  "data:" ++ mime ++ ";base64," ++ payload

/-- The `src` assigned to the cropped image (src/unnamed/part_000 line 69
and `Curtail.crop` line 210 of src/dist/curtail.js): encode with the
source's extension and replace that MIME designation with
`image/octet-stream`. -/
def cropEncodedSrc (path payload : String) : String :=
  let ext := (getFileInfo path).ext
  jsReplaceFirst (toDataURL ("image/" ++ ext) payload) ("image/" ++ ext)
    "image/octet-stream"

/-- The source's loop-based `gcd` agrees with the mathematical
`Nat.gcd`. -/
theorem gcd_eq (a b : Nat) : gcd a b = Nat.gcd a b := by
  induction b using Nat.strong_induction_on generalizing a with
  | _ b ih =>
    rw [gcd]
    by_cases h : b = 0
    · simp [h]
    · simp only [h, if_false]
      rw [ih (a % b) (Nat.mod_lt a (Nat.pos_of_ne_zero h))]
      rw [Nat.gcd_comm b (a % b), ← Nat.gcd_rec, Nat.gcd_comm]

/-- Membership in `nonTransparentFormats`, spelt out. -/
theorem contains_nonTransparent (format : String) :
    nonTransparentFormats.contains format = true ↔
      (format = "jpg" ∨ format = "jpeg" ∨ format = "gif" ∨ format = "bmp") := by
  simp [nonTransparentFormats, List.contains]

/-- A list is a `isPrefixOf`-prefix of itself followed by anything. -/
theorem isPrefixOf_self_append (l t : List Char) : l.isPrefixOf (l ++ t) = true := by
  induction l with
  | nil => simp [List.isPrefixOf]
  | cons a as ih => simp [List.isPrefixOf, ih]

/-- The function `replaceFirstList` walks past a character that cannot start a match. -/
theorem replaceFirstList_cons_ne (c p0 : Char) (s ptl rep : List Char)
    (hne : (p0 == c) = false) :
    replaceFirstList (c :: s) (p0 :: ptl) rep
      = c :: replaceFirstList s (p0 :: ptl) rep := by
  simp [replaceFirstList, List.isPrefixOf, hne]

/-- The function `replaceFirstList` replaces at the head when the pattern matches
there. -/
theorem replaceFirstList_here (s pat rep : List Char)
    (h : pat.isPrefixOf s = true) :
    replaceFirstList s pat rep = rep ++ s.drop pat.length := by
  cases s with
  | nil =>
    cases pat with
    | nil => simp [replaceFirstList]
    | cons p ps => simp [List.isPrefixOf] at h
  | cons c rest => simp [replaceFirstList, h]

/-- Replacing `image/<ext>` inside `data:image/<ext>...` rewrites exactly
the MIME designation after the `data:` scheme. -/
theorem replaceFirst_dataURL (ext post rep : List Char) :
    replaceFirstList
      ('d' :: 'a' :: 't' :: 'a' :: ':' :: 'i' :: 'm' :: 'a' :: 'g' :: 'e' :: '/'
        :: (ext ++ post))
      ('i' :: 'm' :: 'a' :: 'g' :: 'e' :: '/' :: ext) rep
      = 'd' :: 'a' :: 't' :: 'a' :: ':' :: (rep ++ post) := by
  have hpat : ('i' :: 'm' :: 'a' :: 'g' :: 'e' :: '/' :: ext)
      = ((['i', 'm', 'a', 'g', 'e', '/'] : List Char) ++ ext) := rfl
  have hs : ('i' :: 'm' :: 'a' :: 'g' :: 'e' :: '/' :: (ext ++ post))
      = (((['i', 'm', 'a', 'g', 'e', '/'] : List Char) ++ ext) ++ post) := by
    simp
  rw [replaceFirstList_cons_ne _ _ _ _ _ (by decide)]
  rw [replaceFirstList_cons_ne _ _ _ _ _ (by decide)]
  rw [replaceFirstList_cons_ne _ _ _ _ _ (by decide)]
  rw [replaceFirstList_cons_ne _ _ _ _ _ (by decide)]
  rw [replaceFirstList_cons_ne _ _ _ _ _ (by decide)]
  rw [replaceFirstList_here _ _ _ (by rw [hs, hpat]; exact isPrefixOf_self_append _ _)]
  rw [hs, hpat, List.drop_left]

/-- C1: for positive integers `a`, `b`, `simplify a b` is `(a/g, b/g)` for
`g = gcd a b` computed by the iterative Euclidean algorithm, the result
has the same ratio as `(a, b)` (cross-multiplication), and its components
are coprime. -/
theorem simplify_spec (a b : Nat) (ha : 0 < a) (hb : 0 < b) :
    simplify a b = (a / Nat.gcd a b, b / Nat.gcd a b) ∧
    Nat.gcd (simplify a b).1 (simplify a b).2 = 1 ∧
    (simplify a b).1 * b = (simplify a b).2 * a := by
  have hg : 0 < Nat.gcd a b := Nat.gcd_pos_of_pos_left b ha
  have h1 : simplify a b = (a / Nat.gcd a b, b / Nat.gcd a b) := by
    simp [simplify, gcd_eq]
  refine ⟨h1, ?_, ?_⟩
  · rw [h1]
    exact Nat.coprime_div_gcd_div_gcd hg
  · rw [h1]
    obtain ⟨a', ha'⟩ := Nat.gcd_dvd_left a b
    obtain ⟨b', hb'⟩ := Nat.gcd_dvd_right a b
    simp only
    set g := Nat.gcd a b with hgdef
    rw [ha', hb', Nat.mul_div_cancel_left a' hg, Nat.mul_div_cancel_left b' hg]
    ring

/-- Closed instance of `simplify_spec` at `(4, 6)`. -/
theorem simplify_spec_witness :
    simplify 4 6 = (4 / Nat.gcd 4 6, 6 / Nat.gcd 4 6) ∧
    Nat.gcd (simplify 4 6).1 (simplify 4 6).2 = 1 ∧
    (simplify 4 6).1 * 6 = (simplify 4 6).2 * 4 :=
  simplify_spec 4 6 (by decide) (by decide)

/-- C8: multiplying each component of `simplify a b` by the original
`gcd a b` reconstructs `(a, b)`. -/
theorem simplify_roundtrip (a b : Nat) (ha : 0 < a) (hb : 0 < b) :
    (simplify a b).1 * Nat.gcd a b = a ∧ (simplify a b).2 * Nat.gcd a b = b := by
  constructor
  · simp only [simplify, gcd_eq]
    exact Nat.div_mul_cancel (Nat.gcd_dvd_left a b)
  · simp only [simplify, gcd_eq]
    exact Nat.div_mul_cancel (Nat.gcd_dvd_right a b)

/-- Closed instance of `simplify_roundtrip` at `(4, 6)`. -/
theorem simplify_roundtrip_witness :
    (simplify 4 6).1 * Nat.gcd 4 6 = 4 ∧ (simplify 4 6).2 * Nat.gcd 4 6 = 6 :=
  simplify_roundtrip 4 6 (by decide) (by decide)

/-- C2: evaluation of `getFileInfo`. With a slash, the name is extracted
as the claim states; without a slash the code slices the name from index
`nameIndex + 1 = 1`, dropping the first character, so
`getFileInfo "img.png"` yields name `"mg"`, not `"img"` as the claim and
the function's own documentation require. The extension rule (substring
after the last `.`, whole string when there is none) does hold. -/
theorem getFileInfo_eval :
    getFileInfo "folder/img.png" = { name := "img", ext := "png" } ∧
    getFileInfo "img.png" = { name := "mg", ext := "png" } ∧
    getFileInfo "img" = { name := "m", ext := "img" } := by decide

/-- C3: with `preserveAspectRatio` true and selector `"width"` or
`"height"`, resize sets the selected dimension to the requested size and
the other dimension to the rounded value scaled through the simplified
aspect ratio of the natural dimensions; a 100×50 source resized by width
to 200 becomes 200×100. -/
theorem resize_preserve_ratio (w h size : Nat) (hw : 0 < w) (hh : 0 < h) :
    resizeDims w h "width" size true = (size, resizeOtherSpec w h size true) ∧
    resizeDims w h "height" size true = (resizeOtherSpec w h size false, size) ∧
    resizeDims 100 50 "width" 200 true = (200, 100) := by
  refine ⟨?_, ?_, ?_⟩
  · simp [resizeDims, resizeOtherSpec, simplify, gcd_eq]
  · simp [resizeDims, resizeOtherSpec, simplify, gcd_eq]
  · have hj : jsRound ((2 : ℚ)⁻¹ * 200) = 100 := by
      rw [jsRound, Int.floor_eq_iff]
      norm_num
    simp [resizeDims, simplify, gcd_eq, hj]

/-- Closed instance of `resize_preserve_ratio` at a 100×50 source and
size 200. -/
theorem resize_preserve_ratio_witness :
    resizeDims 100 50 "width" 200 true = (200, resizeOtherSpec 100 50 200 true) ∧
    resizeDims 100 50 "height" 200 true = (resizeOtherSpec 100 50 200 false, 200) ∧
    resizeDims 100 50 "width" 200 true = (200, 100) :=
  resize_preserve_ratio 100 50 200 (by decide) (by decide)

/-- C4: a convert call that proceeds pre-fills the destination with opaque
white exactly when the target format is jpg, jpeg, gif, or bmp, and leaves
it unfilled for png, webp, and pdf; the dist build's `FORMAT`-table-driven
condition agrees on every table entry. -/
theorem convert_white_prefill (path format : String) (w h : Nat)
    (hne : (getFileInfo path).ext ≠ format) :
    ∃ plan, convert path format w h = some plan ∧
      plan.width = w ∧ plan.height = h ∧
      (plan.ops = [CanvasOp.fillRect "#FFF" 0 0 (w : ℚ) (h : ℚ),
                   CanvasOp.drawImageFull 0 0] ↔
        (format = "jpg" ∨ format = "jpeg" ∨ format = "gif" ∨ format = "bmp")) ∧
      ((format = "png" ∨ format = "webp" ∨ format = "pdf") →
        plan.ops = [CanvasOp.drawImageFull 0 0]) ∧
      distPrefillsWhite FORMAT.JPG = true ∧ distPrefillsWhite FORMAT.GIF = true ∧
      distPrefillsWhite FORMAT.BMP = true ∧ distPrefillsWhite FORMAT.PNG = false ∧
      distPrefillsWhite FORMAT.WEBP = false ∧ distPrefillsWhite FORMAT.PDF = false := by
  by_cases hm : nonTransparentFormats.contains format = true
  · have hdisj : format = "jpg" ∨ format = "jpeg" ∨ format = "gif" ∨ format = "bmp" :=
      (contains_nonTransparent format).mp hm
    have hmem : format ∈ nonTransparentFormats := by
      simpa [nonTransparentFormats] using hdisj
    refine ⟨⟨w, h, [CanvasOp.fillRect "#FFF" 0 0 (w : ℚ) (h : ℚ),
        CanvasOp.drawImageFull 0 0], "image/" ++ format⟩,
      ?_, rfl, rfl, iff_of_true rfl hdisj, ?_, rfl, rfl, rfl, rfl, rfl, rfl⟩
    · simp [convert, hne, hmem]
    · rintro (rfl | rfl | rfl) <;> simp at hdisj
  · have hdisj : ¬(format = "jpg" ∨ format = "jpeg" ∨ format = "gif" ∨ format = "bmp") :=
      fun hd => hm ((contains_nonTransparent format).mpr hd)
    have hmem : format ∉ nonTransparentFormats := by
      simpa [nonTransparentFormats] using hdisj
    refine ⟨⟨w, h, [CanvasOp.drawImageFull 0 0], "image/" ++ format⟩,
      ?_, rfl, rfl, iff_of_false (by simp) hdisj, fun _ => rfl,
      rfl, rfl, rfl, rfl, rfl, rfl⟩
    simp [convert, hne, hmem]

/-- Closed instance of `convert_white_prefill` for a png source converted
to jpg at 30×20. -/
theorem convert_white_prefill_witness :
    ∃ plan, convert "img.png" "jpg" 30 20 = some plan ∧
      plan.width = 30 ∧ plan.height = 20 ∧
      (plan.ops = [CanvasOp.fillRect "#FFF" 0 0 ((30 : Nat) : ℚ) ((20 : Nat) : ℚ),
                   CanvasOp.drawImageFull 0 0] ↔
        (("jpg" : String) = "jpg" ∨ ("jpg" : String) = "jpeg" ∨
         ("jpg" : String) = "gif" ∨ ("jpg" : String) = "bmp")) ∧
      ((("jpg" : String) = "png" ∨ ("jpg" : String) = "webp" ∨
        ("jpg" : String) = "pdf") →
        plan.ops = [CanvasOp.drawImageFull 0 0]) ∧
      distPrefillsWhite FORMAT.JPG = true ∧ distPrefillsWhite FORMAT.GIF = true ∧
      distPrefillsWhite FORMAT.BMP = true ∧ distPrefillsWhite FORMAT.PNG = false ∧
      distPrefillsWhite FORMAT.WEBP = false ∧ distPrefillsWhite FORMAT.PDF = false :=
  convert_white_prefill "img.png" "jpg" 30 20 (by decide)

/-- C5: when the target format equals the source locator's extension,
convert returns no promise at all and creates no destination surface:
both the plan-level and the promise-level models yield `none`. -/
theorem convert_same_format_silent (path format : String) (w h : Nat)
    (heq : (getFileInfo path).ext = format) :
    convert path format w h = none ∧
    ∀ (ε : Type) (srcLoad encLoad : LoadResult ε),
      convertPromise path format srcLoad encLoad = none := by
  refine ⟨by simp [convert, heq], fun ε srcLoad encLoad => by simp [convertPromise, heq]⟩

/-- Closed instance of `convert_same_format_silent`: converting
`"img.png"` to `"png"`. -/
theorem convert_same_format_silent_witness :
    convert "img.png" "png" 64 64 = none ∧
    ∀ (ε : Type) (srcLoad encLoad : LoadResult ε),
      convertPromise "img.png" "png" srcLoad encLoad = none :=
  convert_same_format_silent "img.png" "png" 64 64 (by decide)

/-- C6: pad builds a `(w + 2p) × (h + 2p)` destination, pre-fills all of
it with `paddingColor` exactly when that color is not the `'transparent'`
sentinel, and draws the source at the centering offset
`(canvasW/2 - w/2, canvasH/2 - h/2)`, which is exactly `(p, p)`;
`pad img 10` of a 100×100 source gives a 120×120 result with the source
at `(10, 10)`. -/
theorem pad_centered (path paddingColor : String) (p w h : Nat) :
    (pad path p paddingColor w h).width = w + 2 * p ∧
    (pad path p paddingColor w h).height = h + 2 * p ∧
    (paddingColor ≠ "transparent" →
      (pad path p paddingColor w h).ops =
        [CanvasOp.fillRect paddingColor 0 0 ((w : ℚ) + 2 * (p : ℚ)) ((h : ℚ) + 2 * (p : ℚ)),
         CanvasOp.drawImageScaled ((p : Nat) : ℚ) ((p : Nat) : ℚ) ((w : Nat) : ℚ)
           ((h : Nat) : ℚ)]) ∧
    (paddingColor = "transparent" →
      (pad path p paddingColor w h).ops =
        [CanvasOp.drawImageScaled ((p : Nat) : ℚ) ((p : Nat) : ℚ) ((w : Nat) : ℚ)
          ((h : Nat) : ℚ)]) ∧
    (pad path 10 "transparent" 100 100).width = 120 ∧
    (pad path 10 "transparent" 100 100).height = 120 ∧
    (pad path 10 "transparent" 100 100).ops =
      [CanvasOp.drawImageScaled 10 10 100 100] := by
  have e1 : ((w + p * 2 : ℕ) : ℚ) = (w : ℚ) + 2 * (p : ℚ) := by push_cast; ring
  have e2 : ((h + p * 2 : ℕ) : ℚ) = (h : ℚ) + 2 * (p : ℚ) := by push_cast; ring
  have e3 : ((w + p * 2 : ℕ) : ℚ) / 2 - (w : ℚ) / 2 = (p : ℚ) := by push_cast; ring
  have e4 : ((h + p * 2 : ℕ) : ℚ) / 2 - (h : ℚ) / 2 = (p : ℚ) := by push_cast; ring
  refine ⟨by simp [pad]; omega, by simp [pad]; omega, ?_, ?_, by simp [pad],
    by simp [pad], ?_⟩
  · intro hc
    simp [pad, hc, e1, e2, e3, e4]
    exact ⟨by ring, by ring⟩
  · intro hc
    simp [pad, hc, e3, e4]
    exact ⟨by ring, by ring⟩
  · simp [pad]
    norm_num

/-- Closed instance of `pad_centered`: white padding of 10 around a
100×100 source. -/
theorem pad_centered_witness :
    (pad "img.png" 10 "#FFF" 100 100).ops =
      [CanvasOp.fillRect "#FFF" 0 0 ((100 : ℚ) + 2 * ((10 : Nat) : ℚ))
        ((100 : ℚ) + 2 * ((10 : Nat) : ℚ)),
       CanvasOp.drawImageScaled ((10 : Nat) : ℚ) ((10 : Nat) : ℚ) ((100 : Nat) : ℚ)
         ((100 : Nat) : ℚ)] :=
  (pad_centered "img.png" "#FFF" 10 100 100).2.2.1 (by decide)

/-- C7: crop encodes the destination with the source's original extension
and then rewrites the declared MIME designation of the resulting data URI
to the generic binary `image/octet-stream`, so the produced data URI
declares `image/octet-stream` regardless of the encoded format. -/
theorem crop_mime_override (path payload : String) :
    cropEncodedSrc path payload = "data:image/octet-stream;base64," ++ payload := by
  have key := replaceFirst_dataURL ((getFileInfo path).ext).data
    (";base64,".data ++ payload.data) "image/octet-stream".data
  apply String.ext
  show replaceFirstList (toDataURL ("image/" ++ (getFileInfo path).ext) payload).data
      ("image/" ++ (getFileInfo path).ext).data "image/octet-stream".data
    = ("data:image/octet-stream;base64," ++ payload).data
  have hdata : (toDataURL ("image/" ++ (getFileInfo path).ext) payload).data
      = 'd' :: 'a' :: 't' :: 'a' :: ':' :: 'i' :: 'm' :: 'a' :: 'g' :: 'e' :: '/'
        :: (((getFileInfo path).ext).data ++ (";base64,".data ++ payload.data)) := by
    show (['d', 'a', 't', 'a', ':'] : List Char)
        ++ ((['i', 'm', 'a', 'g', 'e', '/'] : List Char) ++ ((getFileInfo path).ext).data)
        ++ ([';', 'b', 'a', 's', 'e', '6', '4', ','] : List Char) ++ payload.data = _
    simp
  have hpat : ("image/" ++ (getFileInfo path).ext).data
      = 'i' :: 'm' :: 'a' :: 'g' :: 'e' :: '/' :: ((getFileInfo path).ext).data := rfl
  rw [hdata, hpat, key]
  rfl

/-- C9: every load failure is forwarded verbatim: each operation's promise
rejects with exactly the platform's error value, whether the source load
or the derived (encoded) image load failed. -/
theorem load_error_forwarded (ε : Type) (e : ε) (enc : LoadResult ε) (img : Img)
    (dimension path format : String) (size : Nat) (preserveAspect : Bool)
    (hne : (getFileInfo path).ext ≠ format) :
    cropPromise (LoadResult.err e) enc = Promise.rejected e ∧
    cropPromise (LoadResult.ok img) (LoadResult.err e) = Promise.rejected e ∧
    convertPromise path format (LoadResult.err e) enc = some (Promise.rejected e) ∧
    convertPromise path format (LoadResult.ok img) (LoadResult.err e)
      = some (Promise.rejected e) ∧
    padPromise (LoadResult.err e) enc = Promise.rejected e ∧
    padPromise (LoadResult.ok img) (LoadResult.err e) = Promise.rejected e ∧
    resizePromise dimension size preserveAspect (LoadResult.err e)
      = Promise.rejected e := by
  refine ⟨rfl, rfl, ?_, ?_, rfl, rfl, rfl⟩ <;> simp [convertPromise, hne]

/-- Closed instance of `load_error_forwarded` with a string error value. -/
theorem load_error_forwarded_witness :
    cropPromise (LoadResult.err "boom") (LoadResult.ok ⟨1, 1⟩)
      = Promise.rejected "boom" ∧
    cropPromise (LoadResult.ok ⟨2, 3⟩) (LoadResult.err "boom")
      = Promise.rejected "boom" ∧
    convertPromise "img.png" "jpg" (LoadResult.err "boom") (LoadResult.ok ⟨1, 1⟩)
      = some (Promise.rejected "boom") ∧
    convertPromise "img.png" "jpg" (LoadResult.ok ⟨2, 3⟩) (LoadResult.err "boom")
      = some (Promise.rejected "boom") ∧
    padPromise (LoadResult.err "boom") (LoadResult.ok ⟨1, 1⟩)
      = Promise.rejected "boom" ∧
    padPromise (LoadResult.ok ⟨2, 3⟩) (LoadResult.err "boom")
      = Promise.rejected "boom" ∧
    resizePromise "width" 50 true (LoadResult.err "boom")
      = Promise.rejected "boom" :=
  load_error_forwarded String "boom" (LoadResult.ok ⟨1, 1⟩) ⟨2, 3⟩
    "width" "img.png" "jpg" 50 true (by decide)

/-- C10: for a selector that is neither `"width"` nor `"height"`, resize
resolves with the original image handle and leaves both dimensions
unchanged. -/
theorem resize_unknown_dimension (ε : Type) (dimension : String) (size : Nat)
    (preserveAspect : Bool) (img : Img)
    (hw : dimension ≠ "width") (hh : dimension ≠ "height") :
    resizePromise dimension size preserveAspect (LoadResult.ok img : LoadResult ε)
      = Promise.resolved img ∧
    resizeDims img.width img.height dimension size preserveAspect
      = (img.width, img.height) := by
  have hd : resizeDims img.width img.height dimension size preserveAspect
      = (img.width, img.height) := by
    simp [resizeDims, hw, hh]
  exact ⟨by simp [resizePromise, hd], hd⟩

/-- Closed instance of `resize_unknown_dimension` at selector
`"depth"`. -/
theorem resize_unknown_dimension_witness :
    resizePromise "depth" 42 true (LoadResult.ok ⟨7, 9⟩ : LoadResult String)
      = Promise.resolved ⟨7, 9⟩ ∧
    resizeDims (Img.mk 7 9).width (Img.mk 7 9).height "depth" 42 true
      = ((Img.mk 7 9).width, (Img.mk 7 9).height) :=
  resize_unknown_dimension String "depth" 42 true ⟨7, 9⟩ (by decide) (by decide)

end Curtail
